import Mathlib

/-!
Verification development for the websocket audio-proxy core of the
repository (src/app/websocket/routes.py, src/app/websocket/audio_receiver.py,
src/app/utils/audio.py).

Bytes are modelled as lists of naturals (each entry a byte value), Python
dicts as association lists, and the per-endpoint handler bodies as pure
step functions from registry state and an incoming message to the list of
frames written out plus the successor state.
-/

/-! ## Byte-level helpers: little-endian fields and the id wire format -/

/-- Little-endian 16-bit field, as produced by struct.pack with format
code for an unsigned 16-bit value (audio_receiver.py line 51). -/
def u16le (x : Nat) : List Nat := [x % 256, x / 256 % 256]

/-- Little-endian 32-bit field, as produced by struct.pack with format
code for an unsigned 32-bit value (audio_receiver.py line 48). -/
def u32le (x : Nat) : List Nat :=
  [x % 256, x / 256 % 256, x / 65536 % 256, x / 16777216 % 256]

/-- Decode a little-endian byte list back to a natural number. -/
def decode_le (bs : List Nat) : Nat := bs.foldr (fun b acc => b + 256 * acc) 0

/-- Big-endian base-256 digits of a natural number, most significant
first, with a fixed width. -/
def be_bytes : Nat → Nat → List Nat
  | 0, _ => []
  | w + 1, x => x / 256 ^ w % 256 :: be_bytes w x

/-- Big-endian 16-byte rendering of a 128-bit session id, the value of
uuid.UUID(session_id).bytes used in routes.py lines 273, 302 and 618. -/
def uuid_bytes (sid : Nat) : List Nat := be_bytes 16 sid

/-- Decode 16 big-endian bytes back to the 128-bit id, the value of
uuid.UUID applied to a bytes argument in routes.py lines 190 and 460. -/
def decode_uuid (bs : List Nat) : Nat := bs.foldl (fun acc b => acc * 256 + b) 0

/-! ## WAV container synthesis

The canonical 44-byte header layout, written both by
audio_receiver.create_wav_header (struct.pack calls, lines 48-63) and by
the CPython wave module writer used in routes.create_wav_from_frames
(lines 74-96): RIFF magic, chunk size 36+dataLen, WAVE magic, fmt chunk
of size 16 with format code 1, and the data chunk header.  The magic
byte values are the character codes of the four-byte tags. -/

def riff_magic : List Nat := [82, 73, 70, 70]

def wave_magic : List Nat := [87, 65, 86, 69]

def fmt_magic : List Nat := [102, 109, 116, 32]

def data_magic : List Nat := [100, 97, 116, 97]

/-- Full 44-byte PCM container header for the given sample rate, channel
count, sample width in bytes, and data length in bytes; this is the byte
string the CPython wave writer emits after patching sizes on close. -/
def wav_header (rate channels width dataLen : Nat) : List Nat :=
  riff_magic ++ u32le (36 + dataLen) ++ wave_magic ++
  fmt_magic ++ u32le 16 ++ u16le 1 ++ u16le channels ++ u32le rate ++
  u32le (rate * channels * width) ++ u16le (channels * width) ++
  u16le (8 * width) ++ data_magic ++ u32le dataLen

/-- Embedding of audio_receiver.AudioReceiver.create_wav_header
(audio_receiver.py lines 37-65): fixed 16-bit depth, so sample width 2. -/
def create_wav_header (rate channels dataLen : Nat) : List Nat :=
  riff_magic ++ u32le (36 + dataLen) ++ wave_magic ++
  fmt_magic ++ u32le 16 ++ u16le 1 ++ u16le channels ++ u32le rate ++
  u32le (rate * channels * 2) ++ u16le (channels * 2) ++
  u16le 16 ++ data_magic ++ u32le dataLen

/-- Embedding of routes.create_wav_from_frames (routes.py lines 74-96):
the wave writer produces the canonical header followed by the frames,
with declared data length equal to the number of frame bytes written. -/
def create_wav_from_frames (frames : List Nat) (rate channels width : Nat) : List Nat :=
  wav_header rate channels width frames.length ++ frames

/-! ## WAV container parsing and merge

Embedding of the CPython wave reader as invoked in
routes.merge_wav_audio_data (routes.py lines 58-65), restricted to the
canonical fixed-layout container (the only shape produced by
create_wav_from_frames).  On any input that fails these checks the
Python call raises and the merge falls back to a raw byte append, which
the Option models as none. -/

def read_u16le (bs : List Nat) : Nat := decode_le (bs.take 2)

def read_u32le (bs : List Nat) : Nat := decode_le (bs.take 4)

/-- Parse a canonical PCM container and return its raw frame bytes:
nframes is the declared data length divided by the frame size, and
readframes returns that many frames, bounded by the bytes available. -/
def parse_wav_frames (d : List Nat) : Option (List Nat) :=
  if 44 ≤ d.length ∧ d.take 4 = riff_magic ∧
     (d.drop 8).take 4 = wave_magic ∧ (d.drop 12).take 4 = fmt_magic ∧
     read_u32le (d.drop 16) = 16 ∧ read_u16le (d.drop 20) = 1 ∧
     (d.drop 36).take 4 = data_magic then
    let channels := read_u16le (d.drop 22)
    let width := (read_u16le (d.drop 34) + 7) / 8
    let dataLen := read_u32le (d.drop 40)
    let frameSize := channels * width
    if frameSize = 0 then none
    else some ((d.drop 44).take (min (dataLen / frameSize * frameSize) (d.length - 44)))
  else none

/-- Embedding of routes.merge_wav_audio_data (routes.py lines 41-72).
When the buffer is empty the incoming chunk is stored whole, header
included; otherwise the chunk is parsed and only its frames appended,
falling back to a raw append when parsing fails. -/
def merge_wav_audio_data (existing newData : List Nat) : List Nat :=
  if existing.length = 0 then newData
  else
    match parse_wav_frames newData with
    | some frames => existing ++ frames
    | none => existing ++ newData

/-- Folding the merge rule over a sequence of downstream chunks, as the
backend-reader loop does one chunk at a time (routes.py line 475). -/
def merge_all (chunks : List (List Nat)) : List Nat :=
  chunks.foldl merge_wav_audio_data []

/-! ## Association-list model of Python dicts

Registry dicts are modelled as association lists with unique keys.
Lookup, assignment and guarded deletion mirror dict indexing, item
assignment, and the guarded del statements used throughout routes.py. -/

def alookup {κ α : Type} [DecidableEq κ] : List (κ × α) → κ → Option α
  | [], _ => none
  | (k, v) :: rest, q => if k = q then some v else alookup rest q

def aset {κ α : Type} [DecidableEq κ] : List (κ × α) → κ → α → List (κ × α)
  | [], k, v => [(k, v)]
  | (k0, v0) :: rest, k, v => if k0 = k then (k, v) :: rest else (k0, v0) :: aset rest k v

def aerase {κ α : Type} [DecidableEq κ] : List (κ × α) → κ → List (κ × α)
  | [], _ => []
  | (k0, v0) :: rest, k => if k0 = k then aerase rest k else (k0, v0) :: aerase rest k

def akeys {κ α : Type} (m : List (κ × α)) : List κ := m.map Prod.fst

def nodup_keys {κ α : Type} [DecidableEq κ] (m : List (κ × α)) : Bool :=
  (akeys m).Nodup

/-! ## Handshake and role registration

Text frames written back to a connecting or connected socket. -/

inductive TextOut where
  | error (content : String)
  | heartbeatAck
deriving DecidableEq

/-- Embedding of the duplicate-backend branch of the /proxy handshake
(routes.py lines 128-141): with a backend already registered the new
socket gets a typed error frame and is closed, and the slot keeps the
old socket; otherwise the new socket is registered.  Result components:
frames sent to the new socket, whether it was closed, backend slot. -/
def proxy_ai_backend_handshake (cur : Option Nat) (sock : Nat) :
    List TextOut × Bool × Option Nat :=
  match cur with
  | some b => ([TextOut.error ("已存在AI后端连接")], true, some b)
  | none => ([], false, some sock)

/-- Embedding of the duplicate-backend branch of the /call handshake
(routes.py lines 392-403): with a backend already registered the new
socket is closed after only a log line, with no error frame written. -/
def call_ai_backend_handshake (cur : Option Nat) (sock : Nat) :
    List TextOut × Bool × Option Nat :=
  match cur with
  | some b => ([], true, some b)
  | none => ([], false, some sock)

/-! ## Call id intake on the /call freeswitch handshake -/

/-- Decide whether a character is a hexadecimal digit. -/
def is_hex_digit (c : Char) : Bool :=
  (('0' ≤ c) && (c ≤ '9')) || (('a' ≤ c) && (c ≤ 'f')) || (('A' ≤ c) && (c ≤ 'F'))

/-- Canonical 8-4-4-4-12 hex-dashed rendering of a 128-bit identifier:
36 characters with dashes at positions 8, 13, 18 and 23 and hex digits
elsewhere. -/
def is_canonical_uuid (s : String) : Bool :=
  let cs := s.data
  cs.length == 36 &&
  (List.range 36).all (fun i =>
    if i == 8 || i == 13 || i == 18 || i == 23 then cs.getD i 'x' == '-'
    else is_hex_digit (cs.getD i 'x'))

/-- Embedding of the call-id intake (routes.py line 537): the value of
init_data.get with the freshly minted uuid4 string as the default, so a
supplied value is used verbatim and the fresh id only fills an absent
key. -/
def resolve_call_id (supplied : Option String) (fresh : String) : String :=
  match supplied with
  | some s => s
  | none => fresh

/-! ## Telephony audio-format descriptors and downstream envelopes -/

structure AudioConfig where
  audioDataType : String
  sampleRate : Nat
  channels : Nat
  bitDepth : Nat
deriving DecidableEq

/-- Default descriptor merged under a freeswitch handshake's
audio_config (routes.py lines 541-546). -/
def default_call_config : AudioConfig :=
  { audioDataType := "raw", sampleRate := 16000, channels := 1, bitDepth := 16 }

/-- Descriptor literal built inline at the downstream threshold emission
(routes.py lines 481-486). -/
def call_threshold_config : AudioConfig :=
  { audioDataType := "wav", sampleRate := 24000, channels := 1, bitDepth := 16 }

/-- Fallback descriptor of the disconnect flush (routes.py lines 660-665). -/
def default_flush_config : AudioConfig :=
  { audioDataType := "wav", sampleRate := 24000, channels := 1, bitDepth := 16 }

/-- The streamAudio text envelope sent to a telephony client, with the
container bytes kept raw; the base64 step (routes.py lines 504, 683) is
an injective encoding elided from the model. -/
structure StreamAudioEnvelope where
  audioDataType : String
  sampleRate : Nat
  channels : Nat
  bitDepth : Nat
  audioData : List Nat
deriving DecidableEq

/-- Envelope construction shared by both /call emission sites
(routes.py lines 488-506 and 667-685): container synthesized from the
buffered frames with bitDepth divided by 8 as sample width, and the
envelope audioDataType hardcoded to wav at both sites. -/
def mk_stream_audio (cfg : AudioConfig) (frames : List Nat) : StreamAudioEnvelope :=
  { audioDataType := "wav",
    sampleRate := cfg.sampleRate,
    channels := cfg.channels,
    bitDepth := cfg.bitDepth,
    audioData := create_wav_from_frames frames cfg.sampleRate cfg.channels (cfg.bitDepth / 8) }

/-! ## The /call registry and the backend-reader downstream step -/

structure CallRegistry where
  call_freeswitch_clients : List String
  call_to_client : List (String × String)
  client_to_call : List (String × String)
  call_audio_buffers : List (String × List Nat)
  call_output_buffers : List (String × List Nat)
  call_audio_configs : List (String × AudioConfig)
deriving DecidableEq

/-- Downstream aggregate threshold of the /call reader (routes.py line 479). -/
def downstream_threshold : Nat := 12880

/-- Embedding of the /call backend-reader binary branch (routes.py
lines 448-521) after the id prefix has been split off: route by call id,
merge the chunk into the output buffer, and on reaching the threshold
emit one envelope built from the inline descriptor literal and clear the
buffer.  Unknown ids or missing client sockets drop the chunk. -/
def call_backend_binary_step (st : CallRegistry) (callId : String) (payload : List Nat) :
    List (String × StreamAudioEnvelope) × CallRegistry :=
  match alookup st.call_to_client callId with
  | none => ([], st)
  | some clientId =>
    if clientId ∈ st.call_freeswitch_clients then
      let buf1 := merge_wav_audio_data ((alookup st.call_output_buffers callId).getD []) payload
      if downstream_threshold ≤ buf1.length then
        ([(clientId, mk_stream_audio call_threshold_config buf1)],
         { st with call_output_buffers := aset st.call_output_buffers callId [] })
      else
        ([], { st with call_output_buffers := aset st.call_output_buffers callId buf1 })
    else ([], st)

/-- Embedding of the freeswitch-handler finally block (routes.py lines
641-705): the client socket is removed from the client dict first, then
the call mappings and buffers are deleted; the remaining-output flush is
guarded by membership in the client dict, tested after that removal.
Result components: envelopes sent during teardown, successor state. -/
def freeswitch_teardown (st : CallRegistry) (clientId : String) :
    List (String × StreamAudioEnvelope) × CallRegistry :=
  let fs1 := st.call_freeswitch_clients.erase clientId
  match alookup st.client_to_call clientId with
  | none => ([], { st with call_freeswitch_clients := fs1 })
  | some callId =>
    let sent :=
      match alookup st.call_output_buffers callId with
      | some b =>
        if 0 < b.length ∧ clientId ∈ fs1 then
          [(clientId,
            mk_stream_audio ((alookup st.call_audio_configs callId).getD default_flush_config) b)]
        else []
      | none => []
    (sent,
     { call_freeswitch_clients := fs1,
       call_to_client := aerase st.call_to_client callId,
       client_to_call := aerase st.client_to_call clientId,
       call_audio_buffers := aerase st.call_audio_buffers callId,
       call_output_buffers := aerase st.call_output_buffers callId,
       call_audio_configs := aerase st.call_audio_configs callId })

/-! ## The /proxy registry and client-handler upstream steps

Session ids are modelled by their 128-bit value; the canonical hex
string rendering used as the dict key in routes.py is a bijection onto
those values, so the maps are keyed by the value directly. -/

structure ProxyState where
  backend : Bool
  session_to_client : List (Nat × String)
  client_to_session : List (String × Nat)
  session_audio_buffers : List (Nat × List Nat)
deriving DecidableEq

/-- Upstream chunk threshold of the /proxy handler: 640 bytes per 20 ms
frame times 25 frames (routes.py lines 110-111). -/
def proxy_chunk_threshold : Nat := 16000

/-- Embedding of the /proxy frontend binary branch (routes.py lines
265-285): append to the session buffer; on reaching the threshold with a
backend registered, emit one id-prefixed frame and clear the buffer;
with no backend the buffer keeps growing. -/
def proxy_handle_binary (st : ProxyState) (sid : Nat) (data : List Nat) :
    List (List Nat) × ProxyState :=
  let buf := (alookup st.session_audio_buffers sid).getD [] ++ data
  if proxy_chunk_threshold ≤ buf.length then
    if st.backend then
      ([uuid_bytes sid ++ buf],
       { st with session_audio_buffers := aset st.session_audio_buffers sid [] })
    else ([], { st with session_audio_buffers := aset st.session_audio_buffers sid buf })
  else ([], { st with session_audio_buffers := aset st.session_audio_buffers sid buf })

/-- Embedding of the /proxy audio_complete command branch (routes.py
lines 294-313): a non-empty buffer is flushed as one id-prefixed frame
when a backend is registered and cleared; with no backend the loop
continues with the buffer intact; an empty buffer only logs. -/
def proxy_handle_audio_complete (st : ProxyState) (sid : Nat) :
    List (List Nat) × ProxyState :=
  let buf := (alookup st.session_audio_buffers sid).getD []
  if 0 < buf.length then
    if st.backend then
      ([uuid_bytes sid ++ buf],
       { st with session_audio_buffers := aset st.session_audio_buffers sid [] })
    else ([], st)
  else ([], st)

/-- Embedding of the /proxy frontend finally block (routes.py lines
334-348): remove the client socket, then the session mapping, buffer and
reverse mapping for the session the client owns. -/
def proxy_teardown (st : ProxyState) (clientId : String) : ProxyState :=
  match alookup st.client_to_session clientId with
  | none => st
  | some sid =>
    { st with
      session_to_client := aerase st.session_to_client sid,
      session_audio_buffers := aerase st.session_audio_buffers sid,
      client_to_session := aerase st.client_to_session clientId }

/-- Upstream buffer state of the /call freeswitch handler. -/
structure CallUpstream where
  backend : Bool
  call_to_client : List (Nat × String)
  call_audio_buffers : List (Nat × List Nat)
deriving DecidableEq

/-- Upstream chunk threshold of the /call handler (routes.py line 607). -/
def call_chunk_threshold : Nat := 16384

/-- Embedding of the /call freeswitch binary branch (routes.py lines
602-627): append to the call buffer; on reaching the threshold with a
backend registered, emit one id-prefixed frame and clear the buffer;
with no backend only a warning is logged and the buffer kept. -/
def call_handle_binary (st : CallUpstream) (sid : Nat) (data : List Nat) :
    List (List Nat) × CallUpstream :=
  let buf := (alookup st.call_audio_buffers sid).getD [] ++ data
  if call_chunk_threshold ≤ buf.length then
    if st.backend then
      ([uuid_bytes sid ++ buf],
       { st with call_audio_buffers := aset st.call_audio_buffers sid [] })
    else ([], { st with call_audio_buffers := aset st.call_audio_buffers sid buf })
  else ([], { st with call_audio_buffers := aset st.call_audio_buffers sid buf })

/-! ## Admin cleanup of the /call registry (routes.py lines 764-857) -/

/-- First cleanup pass: drop buffers, output buffers and configs whose
call id has no entry in call_to_client, each scan reading the original
call_to_client (routes.py lines 771-790). -/
def cleanup_phase_orphans (st : CallRegistry) : CallRegistry :=
  { st with
    call_audio_buffers :=
      st.call_audio_buffers.filter (fun p => (alookup st.call_to_client p.1).isSome),
    call_output_buffers :=
      st.call_output_buffers.filter (fun p => (alookup st.call_to_client p.1).isSome),
    call_audio_configs :=
      st.call_audio_configs.filter (fun p => (alookup st.call_to_client p.1).isSome) }

/-- Second cleanup pass: delete call_to_client entries without the
matching reverse entry, then client_to_call entries without a matching
entry in the already-repaired call_to_client (routes.py lines 798-811). -/
def cleanup_phase_repair (st : CallRegistry) : CallRegistry :=
  let c2c1 := st.call_to_client.filter (fun p => decide (alookup st.client_to_call p.2 = some p.1))
  let cl2c1 := st.client_to_call.filter (fun p => decide (alookup c2c1 p.2 = some p.1))
  { st with call_to_client := c2c1, client_to_call := cl2c1 }

/-- Teardown of one client whose ping failed (routes.py lines 822-838). -/
def ping_teardown_one (st : CallRegistry) (clientId : String) : CallRegistry :=
  let fs1 := st.call_freeswitch_clients.erase clientId
  match alookup st.client_to_call clientId with
  | none => { st with call_freeswitch_clients := fs1 }
  | some callId =>
    { call_freeswitch_clients := fs1,
      call_to_client := aerase st.call_to_client callId,
      client_to_call := aerase st.client_to_call clientId,
      call_audio_buffers := aerase st.call_audio_buffers callId,
      call_output_buffers := aerase st.call_output_buffers callId,
      call_audio_configs := aerase st.call_audio_configs callId }

/-- Embedding of cleanup_call_resources (routes.py lines 764-857): the
orphan pass, the mapping-repair pass, then the ping-based liveness pass
over a snapshot of the client list, with the set of clients whose ping
fails supplied as a parameter of the environment. -/
def cleanup_call_resources (st : CallRegistry) (dead : List String) : CallRegistry :=
  let st2 := cleanup_phase_repair (cleanup_phase_orphans st)
  st2.call_freeswitch_clients.foldl
    (fun acc c => if c ∈ dead then ping_teardown_one acc c else acc) st2

/-! ## Touch-sound playback (routes.py lines 314-326, utils/audio.py 27-63) -/

inductive ClientOut where
  | binaryFrame (payload : List Nat)
  | textFrame (msg : TextOut)
deriving DecidableEq

/-- Slices of length size starting at each multiple of size, the chunk
sequence of the touch playback loop (routes.py lines 319-323). -/
def chunks_of (l : List Nat) (size : Nat) : List (List Nat) :=
  (List.range ((l.length + size - 1) / size)).map (fun i => (l.drop (i * size)).take size)

/-- Embedding of utils.audio.get_touch_audio_data (audio.py lines
27-63) over an abstract filesystem: a missing directory or a directory
with no wav-suffixed entries yields none after only an error log; else
the frames of the file picked at the random index are returned. -/
def get_touch_audio_data (dirExists : Bool) (files : List String)
    (readFrames : String → List Nat) (pick : Nat) : Option (List Nat) :=
  if dirExists = false then none
  else
    let wavs := files.filter (fun f => f.toLower.endsWith (".wav"))
    if wavs.isEmpty then none
    else some (readFrames (wavs.getD (pick % wavs.length) ("")))

/-- Embedding of the touch command branch (routes.py lines 314-326):
truthy audio data is sent as ~5 KiB binary frames; a none or empty
result only logs a warning and writes nothing to the client. -/
def handle_touch (audio : Option (List Nat)) : List ClientOut :=
  match audio with
  | some d => if 0 < d.length then (chunks_of d 5120).map ClientOut.binaryFrame else []
  | none => []

def C2_state : CallRegistry :=
  { call_freeswitch_clients := ["c1"],
    call_to_client := [("A", "c1")],
    client_to_call := [("c1", "A")],
    call_audio_buffers := [],
    call_output_buffers := [],
    call_audio_configs := [("A", default_call_config)] }

def C5_state : CallRegistry :=
  { call_freeswitch_clients := ["c1"],
    call_to_client := [("A", "c1")],
    client_to_call := [("c1", "A")],
    call_audio_buffers := [("A", [5])],
    call_output_buffers := [("A", [1, 2, 3])],
    call_audio_configs := [("A", default_call_config)] }

def C9_state : ProxyState :=
  { backend := true,
    session_to_client := [(5, "c")],
    client_to_session := [("c", 5)],
    session_audio_buffers := [(5, [3, 4, 5])] }

def C6_proxy_state : ProxyState :=
  { backend := true,
    session_to_client := [(5, "c")],
    client_to_session := [("c", 5)],
    session_audio_buffers := [(5, [1])] }

def C6_call_state : CallUpstream :=
  { backend := true,
    call_to_client := [(7, "d")],
    call_audio_buffers := [(7, [])] }

/-! ## Registry well-formedness: two-way consistency and no orphans -/

def consistent2B {κ μ : Type} [DecidableEq κ] [DecidableEq μ]
    (f : List (κ × μ)) (g : List (μ × κ)) : Bool :=
  f.all (fun p => decide (alookup g p.2 = some p.1)) &&
  g.all (fun p => decide (alookup f p.2 = some p.1))

def Consistent2 {κ μ : Type} [DecidableEq κ] [DecidableEq μ]
    (f : List (κ × μ)) (g : List (μ × κ)) : Prop :=
  (∀ p ∈ f, alookup g p.2 = some p.1) ∧ (∀ p ∈ g, alookup f p.2 = some p.1)

def subset_keysB {κ α β : Type} [DecidableEq κ]
    (m : List (κ × α)) (m2 : List (κ × β)) : Bool :=
  m.all (fun p => (alookup m2 p.1).isSome)

def SubsetKeys {κ α β : Type} [DecidableEq κ]
    (m : List (κ × α)) (m2 : List (κ × β)) : Prop :=
  ∀ p ∈ m, (alookup m2 p.1).isSome = true

def wf_call_registry (st : CallRegistry) : Bool :=
  nodup_keys st.call_to_client && nodup_keys st.client_to_call &&
  nodup_keys st.call_audio_buffers && nodup_keys st.call_output_buffers &&
  nodup_keys st.call_audio_configs &&
  consistent2B st.call_to_client st.client_to_call &&
  subset_keysB st.call_audio_buffers st.call_to_client &&
  subset_keysB st.call_output_buffers st.call_to_client &&
  subset_keysB st.call_audio_configs st.call_to_client

def wf_proxy_registry (st : ProxyState) : Bool :=
  nodup_keys st.session_to_client && nodup_keys st.client_to_session &&
  nodup_keys st.session_audio_buffers &&
  consistent2B st.session_to_client st.client_to_session &&
  subset_keysB st.session_audio_buffers st.session_to_client

def C7_orphan_state : CallRegistry :=
  { call_freeswitch_clients := [],
    call_to_client := [("A", "c1")],
    client_to_call := [],
    call_audio_buffers := [("A", [1])],
    call_output_buffers := [],
    call_audio_configs := [] }

def C7_wf_call_state : CallRegistry :=
  { call_freeswitch_clients := ["c1"],
    call_to_client := [("A", "c1")],
    client_to_call := [("c1", "A")],
    call_audio_buffers := [("A", [1])],
    call_output_buffers := [("A", [])],
    call_audio_configs := [("A", default_call_config)] }

def C7_wf_proxy_state : ProxyState :=
  { backend := true,
    session_to_client := [(5, "c")],
    client_to_session := [("c", 5)],
    session_audio_buffers := [(5, [1])] }

def C7_skew_state : CallRegistry :=
  { call_freeswitch_clients := ["c2"],
    call_to_client := [("B", "c2")],
    client_to_call := [],
    call_audio_buffers := [],
    call_output_buffers := [],
    call_audio_configs := [] }

theorem u16le_length (x : Nat) : (u16le x).length = 2 := rfl

theorem u32le_length (x : Nat) : (u32le x).length = 4 := rfl

theorem be_bytes_length (w x : Nat) : (be_bytes w x).length = w := by
  induction w with
  | zero => rfl
  | succ n ih => simp [be_bytes, ih]

theorem uuid_bytes_length (sid : Nat) : (uuid_bytes sid).length = 16 :=
  be_bytes_length 16 sid

theorem decode_le_u32le (x : Nat) (h : x < 4294967296) : decode_le (u32le x) = x := by
  simp only [u32le, decode_le, List.foldr]
  omega

theorem decode_le_u16le (x : Nat) (h : x < 65536) : decode_le (u16le x) = x := by
  simp only [u16le, decode_le, List.foldr]
  omega

theorem decode_foldl_be_bytes (w x acc : Nat) :
    List.foldl (fun acc b => acc * 256 + b) acc (be_bytes w x) = acc * 256 ^ w + x % 256 ^ w := by
  induction w generalizing acc with
  | zero => simp [be_bytes, Nat.mod_one]
  | succ n ih =>
    simp only [be_bytes, List.foldl, ih]
    have h1 : (256 : Nat) ^ (n + 1) = 256 ^ n * 256 := by ring
    have h2 : x % (256 ^ n * 256) = x % 256 ^ n + 256 ^ n * (x / 256 ^ n % 256) := Nat.mod_mul
    rw [h1, h2]
    ring

theorem decode_uuid_uuid_bytes (sid : Nat) (h : sid < 2 ^ 128) :
    decode_uuid (uuid_bytes sid) = sid := by
  have h16 : (256 : Nat) ^ 16 = 2 ^ 128 := by norm_num
  simp only [decode_uuid, uuid_bytes, decode_foldl_be_bytes, Nat.zero_mul, Nat.zero_add, h16]
  exact Nat.mod_eq_of_lt h

theorem wav_header_length (r c w n : Nat) : (wav_header r c w n).length = 44 := by
  simp [wav_header, riff_magic, wave_magic, fmt_magic, data_magic, u16le, u32le]

theorem alookup_aset_self {κ α : Type} [DecidableEq κ] (m : List (κ × α)) (k : κ) (v : α) :
    alookup (aset m k v) k = some v := by
  induction m with
  | nil => simp [aset, alookup]
  | cons p rest ih =>
    obtain ⟨k0, v0⟩ := p
    by_cases h : k0 = k
    · simp [aset, h, alookup]
    · simp [aset, h, alookup, ih]

theorem alookup_aset_ne {κ α : Type} [DecidableEq κ] (m : List (κ × α)) (k q : κ) (v : α)
    (h : q ≠ k) : alookup (aset m k v) q = alookup m q := by
  have hkq : k ≠ q := fun he => h he.symm
  induction m with
  | nil => simp [aset, alookup, hkq]
  | cons p rest ih =>
    obtain ⟨k0, v0⟩ := p
    by_cases h0 : k0 = k
    · subst h0
      simp [aset, alookup, hkq]
    · by_cases hq : k0 = q <;> simp [aset, alookup, h0, hq, ih, h]

theorem alookup_aerase {κ α : Type} [DecidableEq κ] (m : List (κ × α)) (k q : κ) :
    alookup (aerase m k) q = if q = k then none else alookup m q := by
  induction m with
  | nil => simp [aerase, alookup]
  | cons p rest ih =>
    obtain ⟨k0, v0⟩ := p
    by_cases h0 : k0 = k
    · subst h0
      by_cases hq : q = k0
      · subst hq
        simp [aerase, ih]
      · have h2 : k0 ≠ q := fun he => hq he.symm
        simp [aerase, alookup, ih, hq, h2]
    · by_cases hq : k0 = q
      · have h2 : ¬ q = k := fun he => h0 (hq.trans he)
        simp [aerase, alookup, h0, hq, h2]
      · simp [aerase, alookup, h0, hq, ih]

/-- Claim C1: the telephony merge round-trip as specified fails on the
code: merging containers into an empty buffer stores the first chunk
whole, header included, so the re-synthesized container's raw frame
bytes are the first container's full bytes followed by the later
chunks' frames, not the concatenation of all the inputs' frames. -/
theorem C1_merge_first_header_retained :
    merge_all [create_wav_from_frames [1, 2] 24000 1 2,
               create_wav_from_frames [3, 4] 24000 1 2] =
      create_wav_from_frames [1, 2] 24000 1 2 ++ [3, 4] ∧
    merge_all [create_wav_from_frames [1, 2] 24000 1 2,
               create_wav_from_frames [3, 4] 24000 1 2] ≠ [1, 2] ++ [3, 4] ∧
    create_wav_from_frames
        (merge_all [create_wav_from_frames [1, 2] 24000 1 2,
                    create_wav_from_frames [3, 4] 24000 1 2]) 24000 1 2 ≠
      create_wav_from_frames ([1, 2] ++ [3, 4]) 24000 1 2 := by
  refine ⟨by decide, by decide, by decide⟩

/-- Claim C2: the envelope of a /call threshold emission is built from
the inline literal descriptor (wav, 24000 Hz, 1 channel, 16-bit), not
the call's stored audio-format descriptor: whatever descriptor is stored
for the call, the emitted envelope declares the constants. -/
theorem C2_threshold_envelope_ignores_descriptor
    (st : CallRegistry) (callId clientId : String) (payload : List Nat) (cfg : AudioConfig)
    (hroute : alookup st.call_to_client callId = some clientId)
    (hws : clientId ∈ st.call_freeswitch_clients)
    (hcfg : alookup st.call_audio_configs callId = some cfg)
    (hthr : downstream_threshold ≤
      (merge_wav_audio_data ((alookup st.call_output_buffers callId).getD []) payload).length) :
    (call_backend_binary_step st callId payload).1 =
      [(clientId, mk_stream_audio call_threshold_config
          (merge_wav_audio_data ((alookup st.call_output_buffers callId).getD []) payload))] ∧
    ∀ p ∈ (call_backend_binary_step st callId payload).1,
      p.2.sampleRate = 24000 ∧ p.2.channels = 1 ∧ p.2.bitDepth = 16 ∧
      p.2.audioDataType = "wav" := by
  constructor
  · simp [call_backend_binary_step, hroute, hws, hthr]
  · intro p hp
    simp [call_backend_binary_step, hroute, hws, hthr] at hp
    subst hp
    simp [mk_stream_audio, call_threshold_config]

/-- Claim C2 witness: a call whose stored descriptor is the default
(raw, 16000 Hz) still gets the constant envelope on a threshold-sized
chunk. -/
theorem C2_threshold_envelope_ignores_descriptor_witness :
    (call_backend_binary_step C2_state ("A") (List.replicate 12880 7)).1 =
      [("c1", mk_stream_audio call_threshold_config
          (merge_wav_audio_data
            ((alookup C2_state.call_output_buffers ("A")).getD []) (List.replicate 12880 7)))] ∧
    ∀ p ∈ (call_backend_binary_step C2_state ("A") (List.replicate 12880 7)).1,
      p.2.sampleRate = 24000 ∧ p.2.channels = 1 ∧ p.2.bitDepth = 16 ∧
      p.2.audioDataType = "wav" :=
  C2_threshold_envelope_ignores_descriptor C2_state ("A") ("c1") (List.replicate 12880 7)
    default_call_config (by decide) (by decide) (by decide)
    (by
      have h1 : merge_wav_audio_data
          ((alookup C2_state.call_output_buffers ("A")).getD []) (List.replicate 12880 7) =
          List.replicate 12880 7 := rfl
      rw [h1, List.length_replicate]
      exact Nat.le_refl 12880)

/-- Claim C3 counterexample: on /call a second ai_backend handshake is
closed without any error frame being written, so the claim that both
endpoints send a typed error text frame is false. -/
theorem C3_call_duplicate_backend_no_error_frame :
    (call_ai_backend_handshake (some 0) 1).1 = [] ∧
    (call_ai_backend_handshake (some 0) 1).2 = (true, some 0) := by
  refine ⟨rfl, rfl⟩

/-- Claim C3 as amended: a duplicate ai_backend handshake on /proxy gets
a typed error frame and is closed, while on /call it is closed without
an error frame; on both endpoints the previously registered backend
remains in the slot, so at most one backend is registered per endpoint
at any instant. -/
theorem C3_amended_duplicate_backend_rejection (b sock : Nat) :
    proxy_ai_backend_handshake (some b) sock =
      ([TextOut.error ("已存在AI后端连接")], true, some b) ∧
    call_ai_backend_handshake (some b) sock = ([], true, some b) ∧
    proxy_ai_backend_handshake none sock = ([], false, some sock) ∧
    call_ai_backend_handshake none sock = ([], false, some sock) := by
  refine ⟨rfl, rfl, rfl, rfl⟩

/-- Claim C4 counterexample: a supplied call_id that is not in the
canonical hex-dashed form is still used verbatim as the call's id, not
replaced by the fresh id. -/
theorem C4_unparsed_call_id_used_verbatim :
    is_canonical_uuid ("not-a-uuid") = false ∧
    resolve_call_id (some ("not-a-uuid")) ("00000000-0000-4000-8000-000000000000") =
      "not-a-uuid" ∧
    "not-a-uuid" ≠ "00000000-0000-4000-8000-000000000000" := by
  refine ⟨by decide, rfl, by decide⟩

/-- Claim C4 as amended: on /call a client-supplied call_id is used
verbatim as the call's id with no format validation, and the fresh
minted id is used exactly when the handshake carries no call_id. -/
theorem C4_amended_call_id_intake (s fresh : String) :
    resolve_call_id (some s) fresh = s ∧ resolve_call_id none fresh = fresh := by
  refine ⟨rfl, rfl⟩

/-- Claim C5: the disconnect flush is dead code: the client socket is
removed from the client dict before the flush's membership guard runs,
so a teardown with a non-empty output buffer still sends nothing. -/
theorem C5_disconnect_flush_never_sent :
    (freeswitch_teardown C5_state ("c1")).1 = [] ∧
    (0 : Nat) < ((alookup C5_state.call_output_buffers ("A")).getD []).length := by
  refine ⟨by decide, by decide⟩

/-- Claim C10 counterexample: when the touch-sound directory is missing,
or exists but holds no wav file, the client receives nothing at all, in
particular no typed error frame. -/
theorem C10_touch_failure_silent :
    handle_touch (get_touch_audio_data false ["a.wav"] (fun _ => [1]) 0) = [] ∧
    handle_touch (get_touch_audio_data true [] (fun _ => [1]) 0) = [] := by
  refine ⟨rfl, rfl⟩

/-- Claim C10 as amended: absence of the touch-sound directory or of any
candidate wav file yields only a logged warning; no frame of any kind is
written to the client. -/
theorem C10_amended_touch_failure (files : List String)
    (readFrames : String → List Nat) (pick : Nat) :
    handle_touch (get_touch_audio_data false files readFrames pick) = [] ∧
    ((files.filter (fun f => f.toLower.endsWith (".wav"))).isEmpty = true →
      handle_touch (get_touch_audio_data true files readFrames pick) = []) := by
  constructor
  · rfl
  · intro h
    simp [get_touch_audio_data, handle_touch, h]

/-- Claim C10 witness: the amended statement applied to an empty
directory listing. -/
theorem C10_amended_touch_failure_witness :
    handle_touch (get_touch_audio_data false [] (fun _ => [2]) 0) = [] ∧
    handle_touch (get_touch_audio_data true [] (fun _ => [2]) 0) = [] :=
  ⟨(C10_amended_touch_failure [] (fun _ => [2]) 0).1,
   (C10_amended_touch_failure [] (fun _ => [2]) 0).2 (by decide)⟩

set_option maxHeartbeats 1000000 in
/-- Claim C8: for raw frames of length n the synthesized container
declares data length n at offset 40 and file chunk size n+36 at offset
4, each as a little-endian 32-bit field; the format code field is 1, the
byte-rate field is rate times channels times bytes per sample, and the
block-align field is channels times bytes per sample.  The layout holds
for both synthesis functions, with audio_receiver's fixed 16-bit depth
making its header the width-2 instance. -/
theorem C8_container_header_fields (r c w n : Nat) (frames : List Nat)
    (h : 36 + n < 4294967296) :
    (wav_header r c w n).length = 44 ∧
    ((wav_header r c w n).drop 4).take 4 = u32le (36 + n) ∧
    ((wav_header r c w n).drop 40).take 4 = u32le n ∧
    ((wav_header r c w n).drop 20).take 2 = u16le 1 ∧
    ((wav_header r c w n).drop 28).take 4 = u32le (r * c * w) ∧
    ((wav_header r c w n).drop 32).take 2 = u16le (c * w) ∧
    decode_le (((wav_header r c w n).drop 4).take 4) = 36 + n ∧
    decode_le (((wav_header r c w n).drop 40).take 4) = n ∧
    create_wav_from_frames frames r c w = wav_header r c w frames.length ++ frames ∧
    create_wav_header r c n = wav_header r c 2 n := by
  refine ⟨rfl, rfl, rfl, rfl, rfl, rfl, ?_, ?_, rfl, rfl⟩
  · have hd : ((wav_header r c w n).drop 4).take 4 = u32le (36 + n) := rfl
    rw [hd, decode_le_u32le (36 + n) h]
  · have hd : ((wav_header r c w n).drop 40).take 4 = u32le n := rfl
    rw [hd, decode_le_u32le n (by omega)]

/-- Claim C8 witness: the header fields at rate 24000, one channel,
width 2 and two data bytes. -/
theorem C8_container_header_fields_witness :
    (wav_header 24000 1 2 2).length = 44 ∧
    ((wav_header 24000 1 2 2).drop 4).take 4 = u32le (36 + 2) ∧
    ((wav_header 24000 1 2 2).drop 40).take 4 = u32le 2 ∧
    ((wav_header 24000 1 2 2).drop 20).take 2 = u16le 1 ∧
    ((wav_header 24000 1 2 2).drop 28).take 4 = u32le (24000 * 1 * 2) ∧
    ((wav_header 24000 1 2 2).drop 32).take 2 = u16le (1 * 2) ∧
    decode_le (((wav_header 24000 1 2 2).drop 4).take 4) = 36 + 2 ∧
    decode_le (((wav_header 24000 1 2 2).drop 40).take 4) = 2 ∧
    create_wav_from_frames [1, 2] 24000 1 2 = wav_header 24000 1 2 ([1, 2] : List Nat).length ++ [1, 2] ∧
    create_wav_header 24000 1 2 = wav_header 24000 1 2 2 :=
  C8_container_header_fields 24000 1 2 2 [1, 2] (by decide)

theorem frame_shape (sid : Nat) (buf : List Nat) (hlen : 0 < buf.length)
    (hs : sid < 2 ^ 128) :
    16 < (uuid_bytes sid ++ buf).length ∧
    (uuid_bytes sid ++ buf).take 16 = uuid_bytes sid ∧
    decode_uuid ((uuid_bytes sid ++ buf).take 16) = sid := by
  have h1 : (uuid_bytes sid ++ buf).take 16 = uuid_bytes sid := by
    have h2 := uuid_bytes_length sid
    rw [← h2, List.take_left]
  refine ⟨?_, h1, ?_⟩
  · rw [List.length_append, uuid_bytes_length]
    omega
  · rw [h1]
    exact decode_uuid_uuid_bytes sid hs

theorem proxy_handle_binary_emit (st : ProxyState) (sid : Nat) (data : List Nat) :
    (proxy_handle_binary st sid data).1 = [] ∨
    ((proxy_handle_binary st sid data).1 =
        [uuid_bytes sid ++ ((alookup st.session_audio_buffers sid).getD [] ++ data)] ∧
      proxy_chunk_threshold ≤ ((alookup st.session_audio_buffers sid).getD [] ++ data).length) := by
  simp only [proxy_handle_binary]
  split
  · split
    · next h _ => exact Or.inr ⟨rfl, h⟩
    · exact Or.inl rfl
  · exact Or.inl rfl

theorem proxy_handle_binary_s2c (st : ProxyState) (sid : Nat) (data : List Nat) :
    (proxy_handle_binary st sid data).2.session_to_client = st.session_to_client := by
  simp only [proxy_handle_binary]
  split
  · split <;> rfl
  · rfl

theorem proxy_handle_audio_complete_emit (st : ProxyState) (sid : Nat) :
    (proxy_handle_audio_complete st sid).1 = [] ∨
    ((proxy_handle_audio_complete st sid).1 =
        [uuid_bytes sid ++ (alookup st.session_audio_buffers sid).getD []] ∧
      0 < ((alookup st.session_audio_buffers sid).getD []).length) := by
  simp only [proxy_handle_audio_complete]
  split
  · split
    · next h _ => exact Or.inr ⟨rfl, h⟩
    · exact Or.inl rfl
  · exact Or.inl rfl

theorem proxy_handle_audio_complete_s2c (st : ProxyState) (sid : Nat) :
    (proxy_handle_audio_complete st sid).2.session_to_client = st.session_to_client := by
  simp only [proxy_handle_audio_complete]
  split
  · split <;> rfl
  · rfl

theorem call_handle_binary_emit (st : CallUpstream) (sid : Nat) (data : List Nat) :
    (call_handle_binary st sid data).1 = [] ∨
    ((call_handle_binary st sid data).1 =
        [uuid_bytes sid ++ ((alookup st.call_audio_buffers sid).getD [] ++ data)] ∧
      call_chunk_threshold ≤ ((alookup st.call_audio_buffers sid).getD [] ++ data).length) := by
  simp only [call_handle_binary]
  split
  · split
    · next h _ => exact Or.inr ⟨rfl, h⟩
    · exact Or.inl rfl
  · exact Or.inl rfl

theorem call_handle_binary_c2c (st : CallUpstream) (sid : Nat) (data : List Nat) :
    (call_handle_binary st sid data).2.call_to_client = st.call_to_client := by
  simp only [call_handle_binary]
  split
  · split <;> rfl
  · rfl

/-- Claim C6: every binary frame emitted to a backend socket by the
/proxy threshold path, the /proxy audio_complete path, or the /call
threshold path is the 16-byte big-endian id of the handling session
followed by a non-empty payload, the first 16 bytes decode back to that
id, and the session mapping is unchanged by the step, so the id is
registered at emission time. -/
theorem C6_backend_frame_format
    (stp : ProxyState) (stc : CallUpstream) (sid csid : Nat) (data cdata : List Nat)
    (hs : sid < 2 ^ 128) (hc : csid < 2 ^ 128)
    (hreg : (alookup stp.session_to_client sid).isSome = true)
    (hcreg : (alookup stc.call_to_client csid).isSome = true) :
    (∀ f ∈ (proxy_handle_binary stp sid data).1,
      16 < f.length ∧ f.take 16 = uuid_bytes sid ∧ decode_uuid (f.take 16) = sid ∧
      (alookup (proxy_handle_binary stp sid data).2.session_to_client sid).isSome = true) ∧
    (∀ f ∈ (proxy_handle_audio_complete stp sid).1,
      16 < f.length ∧ f.take 16 = uuid_bytes sid ∧ decode_uuid (f.take 16) = sid ∧
      (alookup (proxy_handle_audio_complete stp sid).2.session_to_client sid).isSome = true) ∧
    (∀ f ∈ (call_handle_binary stc csid cdata).1,
      16 < f.length ∧ f.take 16 = uuid_bytes csid ∧ decode_uuid (f.take 16) = csid ∧
      (alookup (call_handle_binary stc csid cdata).2.call_to_client csid).isSome = true) := by
  refine ⟨?_, ?_, ?_⟩
  · intro f hf
    rcases proxy_handle_binary_emit stp sid data with he | ⟨he, hthr⟩
    · rw [he] at hf
      exact absurd hf (List.not_mem_nil f)
    · rw [he, List.mem_singleton] at hf
      subst hf
      have hlen : 0 < ((alookup stp.session_audio_buffers sid).getD [] ++ data).length := by
        have h16 : (16000 : Nat) ≤ _ := hthr
        omega
      obtain ⟨ha, hb2, hc2⟩ := frame_shape sid _ hlen hs
      rw [proxy_handle_binary_s2c]
      exact ⟨ha, hb2, hc2, hreg⟩
  · intro f hf
    rcases proxy_handle_audio_complete_emit stp sid with he | ⟨he, h0⟩
    · rw [he] at hf
      exact absurd hf (List.not_mem_nil f)
    · rw [he, List.mem_singleton] at hf
      subst hf
      obtain ⟨ha, hb2, hc2⟩ := frame_shape sid _ h0 hs
      rw [proxy_handle_audio_complete_s2c]
      exact ⟨ha, hb2, hc2, hreg⟩
  · intro f hf
    rcases call_handle_binary_emit stc csid cdata with he | ⟨he, hthr⟩
    · rw [he] at hf
      exact absurd hf (List.not_mem_nil f)
    · rw [he, List.mem_singleton] at hf
      subst hf
      have hlen : 0 < ((alookup stc.call_audio_buffers csid).getD [] ++ cdata).length := by
        have h16 : (16384 : Nat) ≤ _ := hthr
        omega
      obtain ⟨ha, hb2, hc2⟩ := frame_shape csid _ hlen hc
      rw [call_handle_binary_c2c]
      exact ⟨ha, hb2, hc2, hcreg⟩

/-- Claim C9: on /proxy, with a backend registered and a session whose
buffer holds m bytes, 0 below the threshold, the audio_complete command
emits exactly one binary frame of length 16+m to the backend and leaves
the session's inbound buffer cleared. -/
theorem C9_audio_complete_flush (st : ProxyState) (sid : Nat) (buf : List Nat)
    (hbuf : alookup st.session_audio_buffers sid = some buf)
    (h0 : 0 < buf.length) (hthr : buf.length < proxy_chunk_threshold)
    (hb : st.backend = true) :
    (proxy_handle_audio_complete st sid).1 = [uuid_bytes sid ++ buf] ∧
    (uuid_bytes sid ++ buf).length = 16 + buf.length ∧
    alookup (proxy_handle_audio_complete st sid).2.session_audio_buffers sid = some [] := by
  have hg : (alookup st.session_audio_buffers sid).getD [] = buf := by
    rw [hbuf]
    rfl
  refine ⟨?_, ?_, ?_⟩
  · simp [proxy_handle_audio_complete, hg, hb, h0]
  · rw [List.length_append, uuid_bytes_length]
  · simp [proxy_handle_audio_complete, hg, hb, h0, alookup_aset_self]

/-- Claim C9 witness: a three-byte buffer is flushed as one 19-byte
frame and the buffer is left empty. -/
theorem C9_audio_complete_flush_witness :
    (proxy_handle_audio_complete C9_state 5).1 = [uuid_bytes 5 ++ [3, 4, 5]] ∧
    (uuid_bytes 5 ++ [3, 4, 5]).length = 16 + ([3, 4, 5] : List Nat).length ∧
    alookup (proxy_handle_audio_complete C9_state 5).2.session_audio_buffers 5 = some [] :=
  C9_audio_complete_flush C9_state 5 [3, 4, 5] (by decide) (by decide) (by decide) (by decide)

/-- Claim C6 witness: the frame invariant instantiated at threshold
crossings of both endpoints and an audio_complete flush. -/
theorem C6_backend_frame_format_witness :
    (∀ f ∈ (proxy_handle_binary C6_proxy_state 5 (List.replicate 16000 1)).1,
      16 < f.length ∧ f.take 16 = uuid_bytes 5 ∧ decode_uuid (f.take 16) = 5 ∧
      (alookup (proxy_handle_binary C6_proxy_state 5
          (List.replicate 16000 1)).2.session_to_client 5).isSome = true) ∧
    (∀ f ∈ (proxy_handle_audio_complete C6_proxy_state 5).1,
      16 < f.length ∧ f.take 16 = uuid_bytes 5 ∧ decode_uuid (f.take 16) = 5 ∧
      (alookup (proxy_handle_audio_complete C6_proxy_state 5).2.session_to_client 5).isSome
        = true) ∧
    (∀ f ∈ (call_handle_binary C6_call_state 7 (List.replicate 16384 2)).1,
      16 < f.length ∧ f.take 16 = uuid_bytes 7 ∧ decode_uuid (f.take 16) = 7 ∧
      (alookup (call_handle_binary C6_call_state 7
          (List.replicate 16384 2)).2.call_to_client 7).isSome = true) :=
  C6_backend_frame_format C6_proxy_state C6_call_state 5 7
    (List.replicate 16000 1) (List.replicate 16384 2)
    (by norm_num) (by norm_num) (by decide) (by decide)

theorem consistent2B_iff {κ μ : Type} [DecidableEq κ] [DecidableEq μ]
    (f : List (κ × μ)) (g : List (μ × κ)) :
    consistent2B f g = true ↔ Consistent2 f g := by
  simp [consistent2B, Consistent2, List.all_eq_true]

theorem subset_keysB_iff {κ α β : Type} [DecidableEq κ]
    (m : List (κ × α)) (m2 : List (κ × β)) :
    subset_keysB m m2 = true ↔ SubsetKeys m m2 := by
  simp [subset_keysB, SubsetKeys, List.all_eq_true]

theorem nodup_keys_iff {κ α : Type} [DecidableEq κ] (m : List (κ × α)) :
    nodup_keys m = true ↔ (akeys m).Nodup := by
  simp [nodup_keys]

theorem alookup_mem {κ α : Type} [DecidableEq κ] {m : List (κ × α)} {k : κ} {v : α}
    (h : alookup m k = some v) : (k, v) ∈ m := by
  induction m with
  | nil => simp [alookup] at h
  | cons p rest ih =>
    obtain ⟨k0, v0⟩ := p
    by_cases h0 : k0 = k
    · subst h0
      simp [alookup] at h
      simp [h]
    · simp [alookup, h0] at h
      exact List.mem_cons_of_mem _ (ih h)

theorem mem_alookup {κ α : Type} [DecidableEq κ] {m : List (κ × α)} {k : κ} {v : α}
    (hn : (akeys m).Nodup) (hm : (k, v) ∈ m) : alookup m k = some v := by
  induction m with
  | nil => simp at hm
  | cons p rest ih =>
    obtain ⟨k0, v0⟩ := p
    rw [akeys, List.map_cons, List.nodup_cons] at hn
    rcases List.mem_cons.mp hm with he | hr
    · rw [Prod.mk.injEq] at he
      obtain ⟨h1, h2⟩ := he
      subst h1
      subst h2
      simp [alookup]
    · have hkm : k ∈ List.map Prod.fst rest := List.mem_map_of_mem Prod.fst hr
      have hk : k0 ≠ k := by
        intro he2
        rw [he2] at hn
        exact hn.1 hkm
      simp only [alookup, if_neg hk]
      exact ih hn.2 hr

theorem aerase_mem {κ α : Type} [DecidableEq κ] {m : List (κ × α)} {k : κ}
    {p : κ × α} (h : p ∈ aerase m k) : p ∈ m ∧ p.1 ≠ k := by
  induction m with
  | nil => simp [aerase] at h
  | cons q rest ih =>
    obtain ⟨k0, v0⟩ := q
    by_cases h0 : k0 = k
    · simp only [aerase, if_pos h0] at h
      obtain ⟨h1, h2⟩ := ih h
      exact ⟨List.mem_cons_of_mem _ h1, h2⟩
    · simp only [aerase, if_neg h0] at h
      rcases List.mem_cons.mp h with he | hr
      · subst he
        exact ⟨List.mem_cons_self _ _, h0⟩
      · obtain ⟨h1, h2⟩ := ih hr
        exact ⟨List.mem_cons_of_mem _ h1, h2⟩

theorem akeys_aerase_sub {κ α : Type} [DecidableEq κ] {m : List (κ × α)} {k x : κ}
    (h : x ∈ akeys (aerase m k)) : x ∈ akeys m := by
  rw [akeys, List.mem_map] at h
  obtain ⟨p, hp, he⟩ := h
  exact he ▸ List.mem_map_of_mem Prod.fst (aerase_mem hp).1

theorem nodup_keys_aerase {κ α : Type} [DecidableEq κ] {m : List (κ × α)} (k : κ)
    (hn : (akeys m).Nodup) : (akeys (aerase m k)).Nodup := by
  induction m with
  | nil => simp [aerase, akeys]
  | cons q rest ih =>
    obtain ⟨k0, v0⟩ := q
    rw [akeys, List.map_cons, List.nodup_cons] at hn
    by_cases h0 : k0 = k
    · simp only [aerase, if_pos h0]
      exact ih hn.2
    · simp only [aerase, if_neg h0, akeys, List.map_cons, List.nodup_cons]
      exact ⟨fun hx => hn.1 (akeys_aerase_sub hx), ih hn.2⟩

theorem nodup_keys_filter {κ α : Type} [DecidableEq κ] (m : List (κ × α))
    (p : κ × α → Bool) (hn : (akeys m).Nodup) : (akeys (m.filter p)).Nodup := by
  have hsub : List.Sublist (akeys (m.filter p)) (akeys m) :=
    List.Sublist.map Prod.fst (List.filter_sublist m)
  exact hn.sublist hsub

theorem alookup_none {κ α : Type} [DecidableEq κ] {m : List (κ × α)} {k : κ} :
    alookup m k = none ↔ k ∉ akeys m := by
  induction m with
  | nil => simp [alookup, akeys]
  | cons q rest ih =>
    obtain ⟨k0, v0⟩ := q
    rw [akeys, List.map_cons, List.mem_cons]
    by_cases h0 : k0 = k
    · subst h0
      simp [alookup]
    · simp only [alookup, if_neg h0, ih, akeys]
      constructor
      · intro h1 h2
        rcases h2 with he | hm
        · exact h0 he.symm
        · exact h1 hm
      · intro h1 h2
        exact h1 (Or.inr h2)

theorem akeys_filter_sub {κ α : Type} [DecidableEq κ] {m : List (κ × α)}
    {p : κ × α → Bool} {x : κ} (h : x ∈ akeys (m.filter p)) : x ∈ akeys m :=
  (List.Sublist.map Prod.fst (List.filter_sublist m)).subset h

theorem alookup_filter_some {κ α : Type} [DecidableEq κ] {m : List (κ × α)} {k : κ}
    {v : α} (p : κ × α → Bool) (hn : (akeys m).Nodup) (h : alookup m k = some v) :
    alookup (m.filter p) k = if p (k, v) = true then some v else none := by
  induction m with
  | nil => simp [alookup] at h
  | cons q rest ih =>
    obtain ⟨k0, v0⟩ := q
    rw [akeys, List.map_cons, List.nodup_cons] at hn
    rw [List.filter_cons]
    by_cases h0 : k0 = k
    · subst h0
      rw [alookup, if_pos rfl] at h
      injection h with h
      subst h
      by_cases hp : p (k0, v0) = true
      · rw [if_pos hp, if_pos hp, alookup, if_pos rfl]
      · rw [if_neg hp, if_neg hp]
        exact alookup_none.mpr (fun hx => hn.1 (akeys_filter_sub hx))
    · rw [alookup, if_neg h0] at h
      by_cases hp : p (k0, v0) = true
      · rw [if_pos hp, alookup, if_neg h0]
        exact ih hn.2 h
      · rw [if_neg hp]
        exact ih hn.2 h

theorem consistent2_erase {κ μ : Type} [DecidableEq κ] [DecidableEq μ]
    {f : List (κ × μ)} {g : List (μ × κ)} {k : κ} {q : μ}
    (hc : Consistent2 f g) (hfk : alookup f k = some q) :
    Consistent2 (aerase f k) (aerase g q) := by
  obtain ⟨h1, h2⟩ := hc
  constructor
  · intro p hp
    obtain ⟨hpf, hpk⟩ := aerase_mem hp
    have hg := h1 p hpf
    have hpq : p.2 ≠ q := by
      intro he
      have hk : alookup g q = some k := h1 (k, q) (alookup_mem hfk)
      rw [he] at hg
      have h3 : some p.1 = some k := hg.symm.trans hk
      simp only [Option.some.injEq] at h3
      exact hpk h3
    rw [alookup_aerase, if_neg hpq]
    exact hg
  · intro p hp
    obtain ⟨hpg, hpq⟩ := aerase_mem hp
    have hf2 := h2 p hpg
    have hpk : p.2 ≠ k := by
      intro he
      rw [he] at hf2
      have h3 : some p.1 = some q := hf2.symm.trans hfk
      simp only [Option.some.injEq] at h3
      exact hpq h3
    rw [alookup_aerase, if_neg hpk]
    exact hf2

theorem subset_keys_erase {κ α β : Type} [DecidableEq κ]
    {m : List (κ × α)} {m2 : List (κ × β)} {k : κ}
    (hs : SubsetKeys m m2) : SubsetKeys (aerase m k) (aerase m2 k) := by
  intro p hp
  obtain ⟨hpm, hpk⟩ := aerase_mem hp
  rw [alookup_aerase, if_neg hpk]
  exact hs p hpm

theorem wf_call_registry_iff (st : CallRegistry) :
    wf_call_registry st = true ↔
      ((akeys st.call_to_client).Nodup ∧ (akeys st.client_to_call).Nodup ∧
       (akeys st.call_audio_buffers).Nodup ∧ (akeys st.call_output_buffers).Nodup ∧
       (akeys st.call_audio_configs).Nodup ∧
       Consistent2 st.call_to_client st.client_to_call ∧
       SubsetKeys st.call_audio_buffers st.call_to_client ∧
       SubsetKeys st.call_output_buffers st.call_to_client ∧
       SubsetKeys st.call_audio_configs st.call_to_client) := by
  simp [wf_call_registry, Bool.and_eq_true, nodup_keys_iff, consistent2B_iff,
    subset_keysB_iff, and_assoc]

theorem wf_proxy_registry_iff (st : ProxyState) :
    wf_proxy_registry st = true ↔
      ((akeys st.session_to_client).Nodup ∧ (akeys st.client_to_session).Nodup ∧
       (akeys st.session_audio_buffers).Nodup ∧
       Consistent2 st.session_to_client st.client_to_session ∧
       SubsetKeys st.session_audio_buffers st.session_to_client) := by
  simp [wf_proxy_registry, Bool.and_eq_true, nodup_keys_iff, consistent2B_iff,
    subset_keysB_iff, and_assoc]

theorem wf_freeswitch_teardown (st : CallRegistry) (cid : String)
    (h : wf_call_registry st = true) :
    wf_call_registry (freeswitch_teardown st cid).2 = true := by
  rw [wf_call_registry_iff] at h
  obtain ⟨hn1, hn2, hn3, hn4, hn5, hc, hs1, hs2, hs3⟩ := h
  rw [wf_call_registry_iff]
  unfold freeswitch_teardown
  cases hcl : alookup st.client_to_call cid with
  | none => exact ⟨hn1, hn2, hn3, hn4, hn5, hc, hs1, hs2, hs3⟩
  | some callId =>
    have hfk : alookup st.call_to_client callId = some cid :=
      hc.2 (cid, callId) (alookup_mem hcl)
    exact ⟨nodup_keys_aerase _ hn1, nodup_keys_aerase _ hn2, nodup_keys_aerase _ hn3,
      nodup_keys_aerase _ hn4, nodup_keys_aerase _ hn5,
      consistent2_erase hc hfk, subset_keys_erase hs1, subset_keys_erase hs2,
      subset_keys_erase hs3⟩

theorem wf_proxy_teardown (st : ProxyState) (cid : String)
    (h : wf_proxy_registry st = true) :
    wf_proxy_registry (proxy_teardown st cid) = true := by
  rw [wf_proxy_registry_iff] at h
  obtain ⟨hn1, hn2, hn3, hc, hs1⟩ := h
  rw [wf_proxy_registry_iff]
  unfold proxy_teardown
  cases hcl : alookup st.client_to_session cid with
  | none => exact ⟨hn1, hn2, hn3, hc, hs1⟩
  | some sid =>
    have hfk : alookup st.session_to_client sid = some cid :=
      hc.2 (cid, sid) (alookup_mem hcl)
    exact ⟨nodup_keys_aerase _ hn1, nodup_keys_aerase _ hn2, nodup_keys_aerase _ hn3,
      consistent2_erase hc hfk, subset_keys_erase hs1⟩

theorem cleanup_phase_repair_consistent (st : CallRegistry)
    (hn1 : (akeys st.call_to_client).Nodup) (hn2 : (akeys st.client_to_call).Nodup) :
    Consistent2 (cleanup_phase_repair st).call_to_client
      (cleanup_phase_repair st).client_to_call ∧
    (akeys (cleanup_phase_repair st).call_to_client).Nodup ∧
    (akeys (cleanup_phase_repair st).client_to_call).Nodup := by
  have hproj1 : (cleanup_phase_repair st).call_to_client =
      st.call_to_client.filter (fun p => decide (alookup st.client_to_call p.2 = some p.1)) :=
    rfl
  have hproj2 : (cleanup_phase_repair st).client_to_call =
      st.client_to_call.filter (fun p =>
        decide (alookup (st.call_to_client.filter
          (fun p2 => decide (alookup st.client_to_call p2.2 = some p2.1))) p.2 = some p.1)) :=
    rfl
  rw [hproj1, hproj2]
  have hnc : (akeys (st.call_to_client.filter
      (fun p => decide (alookup st.client_to_call p.2 = some p.1)))).Nodup :=
    nodup_keys_filter _ _ hn1
  refine ⟨⟨?_, ?_⟩, hnc, nodup_keys_filter _ _ hn2⟩
  · intro p hp
    obtain ⟨a, b⟩ := p
    obtain ⟨hmem, hpred⟩ := List.mem_filter.mp hp
    have hlk : alookup st.client_to_call b = some a := of_decide_eq_true hpred
    rw [alookup_filter_some _ hn2 hlk]
    have hlk2 : alookup (st.call_to_client.filter
        (fun p2 => decide (alookup st.client_to_call p2.2 = some p2.1))) a = some b :=
      mem_alookup hnc hp
    simp [hlk2]
  · intro p hp
    obtain ⟨hmem, hpred⟩ := List.mem_filter.mp hp
    exact of_decide_eq_true hpred

theorem foldl_preserve {σ τ : Type} (P : σ → Prop) (f : σ → τ → σ)
    (hstep : ∀ s c, P s → P (f s c)) (l : List τ) (s : σ) (hs : P s) :
    P (l.foldl f s) := by
  induction l generalizing s with
  | nil => exact hs
  | cons c rest ih => exact ih _ (hstep s c hs)

theorem ping_teardown_one_preserve (st : CallRegistry) (cid : String)
    (h : Consistent2 st.call_to_client st.client_to_call ∧
      (akeys st.call_to_client).Nodup ∧ (akeys st.client_to_call).Nodup) :
    Consistent2 (ping_teardown_one st cid).call_to_client
      (ping_teardown_one st cid).client_to_call ∧
    (akeys (ping_teardown_one st cid).call_to_client).Nodup ∧
    (akeys (ping_teardown_one st cid).client_to_call).Nodup := by
  obtain ⟨hc, hn1, hn2⟩ := h
  unfold ping_teardown_one
  cases hcl : alookup st.client_to_call cid with
  | none => exact ⟨hc, hn1, hn2⟩
  | some callId =>
    have hfk : alookup st.call_to_client callId = some cid :=
      hc.2 (cid, callId) (alookup_mem hcl)
    exact ⟨consistent2_erase hc hfk, nodup_keys_aerase _ hn1, nodup_keys_aerase _ hn2⟩

theorem cleanup_call_resources_consistent (st : CallRegistry) (dead : List String)
    (hn1 : (akeys st.call_to_client).Nodup) (hn2 : (akeys st.client_to_call).Nodup) :
    Consistent2 (cleanup_call_resources st dead).call_to_client
      (cleanup_call_resources st dead).client_to_call := by
  have hP := cleanup_phase_repair_consistent (cleanup_phase_orphans st) hn1 hn2
  have hfold := foldl_preserve
    (fun s => Consistent2 s.call_to_client s.client_to_call ∧
      (akeys s.call_to_client).Nodup ∧ (akeys s.client_to_call).Nodup)
    (fun acc c => if c ∈ dead then ping_teardown_one acc c else acc)
    (fun s c hs => by
      by_cases hd : c ∈ dead
      · simpa [hd] using ping_teardown_one_preserve s c hs
      · simpa [hd] using hs)
    (cleanup_phase_repair (cleanup_phase_orphans st)).call_freeswitch_clients
    (cleanup_phase_repair (cleanup_phase_orphans st))
    ⟨hP.1, hP.2.1, hP.2.2⟩
  exact hfold.1

/-- Claim C7 counterexample: an admin cleanup run on a registry whose
call A maps to a client without a reverse entry removes the mapping in
the repair pass but keeps A's buffer, because the orphan scan ran
earlier against the unrepaired mapping; after cleanup a buffer exists
whose call id has no registered mapping. -/
theorem C7_cleanup_leaves_orphan_buffer :
    alookup (cleanup_call_resources C7_orphan_state []).call_audio_buffers ("A") =
      some [1] ∧
    alookup (cleanup_call_resources C7_orphan_state []).call_to_client ("A") = none := by
  refine ⟨by decide, by decide⟩

/-- Claim C7 as amended: every client teardown on /proxy and /call
preserves two-way mapping consistency and leaves no orphan buffers or
descriptors, and an admin cleanup always restores two-way consistency of
the call and client maps; but cleanup only removes buffers and
descriptors that were orphaned when the invocation started, so a buffer
whose mapping is removed by the same invocation's repair pass can remain
until a later invocation. -/
theorem C7_amended_registry_consistency (st st2 : CallRegistry) (pst : ProxyState)
    (cid pcid : String) (dead : List String)
    (h1 : wf_call_registry st = true) (h2 : wf_proxy_registry pst = true)
    (hn1 : nodup_keys st2.call_to_client = true)
    (hn2 : nodup_keys st2.client_to_call = true) :
    wf_call_registry (freeswitch_teardown st cid).2 = true ∧
    wf_proxy_registry (proxy_teardown pst pcid) = true ∧
    consistent2B (cleanup_call_resources st2 dead).call_to_client
      (cleanup_call_resources st2 dead).client_to_call = true := by
  refine ⟨wf_freeswitch_teardown st cid h1, wf_proxy_teardown pst pcid h2, ?_⟩
  rw [consistent2B_iff]
  exact cleanup_call_resources_consistent st2 dead
    ((nodup_keys_iff _).mp hn1) ((nodup_keys_iff _).mp hn2)

/-- Claim C7 witness: the amended statement at a well-formed registry
pair, tearing down client c1 and session client c, and a cleanup of a
registry with a dangling call-to-client entry. -/
theorem C7_amended_registry_consistency_witness :
    wf_call_registry (freeswitch_teardown C7_wf_call_state ("c1")).2 = true ∧
    wf_proxy_registry (proxy_teardown C7_wf_proxy_state ("c")) = true ∧
    consistent2B (cleanup_call_resources C7_skew_state ["c2"]).call_to_client
      (cleanup_call_resources C7_skew_state ["c2"]).client_to_call = true :=
  C7_amended_registry_consistency C7_wf_call_state C7_skew_state C7_wf_proxy_state
    ("c1") ("c") ["c2"] (by decide) (by decide) (by decide) (by decide)
